import Mathlib

/-!
Verification of the terminal command/render pipeline of the
terminal-portfolio repository.

The development shallowly embeds the formatter module
(`src/core/utils/formatters.ts`, of which the repository holds two
versions; per the design notes the defensive version of the
certifications/contact formatters is authoritative) and the terminal
engine hook (`src/core/hooks/useTerminal.ts`).  Strings are modelled by
Lean `String` (lists of characters), JSON records by structures whose
optional fields are `Option`-typed exactly where the source code guards
the access defensively, and the React state updates of the hook by an
explicit state type together with the list of states observed after each
update.
-/

/-- Kind tag of one output-history entry (`type: "raw" | "html"`). -/
inductive OutputType where
  | raw : OutputType
  | html : OutputType
deriving DecidableEq, Repr

/-- One entry of the terminal output history (`OutputItem` in the hook). -/
structure OutputItem where
  type : OutputType
  content : String
deriving DecidableEq, Repr

/-- An item carrying an icon glyph, a color key and free text, the shape
shared by the specialization/goal/topic/skill lists in the JSON data. -/
structure Item where
  icon : String
  color : String
  text : String
deriving DecidableEq, Repr

/-- Record for the `whoami` section. -/
structure WhoamiData where
  name : String
  role : String
  text : String
deriving DecidableEq, Repr

/-- Record for the profile section. -/
structure PerfilData where
  title : String
  description : String
  specialization : List Item
  goals : List Item
deriving DecidableEq, Repr

/-- One education block. -/
structure EstudioItem where
  id : String
  titulo : String
  inicio : String
  fin : String
  centro : String
  ubicacion : String
  temas : List Item
deriving DecidableEq, Repr

/-- Record for the education section. -/
structure EstudiosData where
  title : String
  items : List EstudioItem
deriving DecidableEq, Repr

/-- One technology-stack group of an experience block. -/
structure StackGroup where
  icon : String
  color : String
  title : String
  items : List String
deriving DecidableEq, Repr

/-- One experience block. -/
structure ExpItem where
  id : String
  puesto : String
  inicio : String
  fin : String
  empresa : String
  ubicacion : String
  responsabilidades : List Item
  logros : List Item
  stackGroups : List StackGroup
deriving DecidableEq, Repr

/-- Record for the experience section. -/
structure ExperienciaData where
  title : String
  items : List ExpItem
deriving DecidableEq, Repr

/-- One skill category. -/
structure Categoria where
  nombre : String
  items : List Item
deriving DecidableEq, Repr

/-- Record for the skills section. -/
structure SkillsData where
  title : String
  categorias : List Categoria
deriving DecidableEq, Repr

/-- One certification entry; every field is optional, mirroring the
defensive `safeStr`/`safeList` coercions of the authoritative formatter. -/
structure Cert where
  icon : Option String
  color : Option String
  nombre : Option String
  anio : Option String
  id : Option String
  url : Option String
  detalles : Option (List String)
deriving DecidableEq, Repr

/-- Record for the certifications section. -/
structure CertData where
  title : Option String
  obtenidas : Option (List Cert)
  enPreparacion : Option (List Cert)
  objetivos : Option (List Cert)
deriving DecidableEq, Repr

/-- One contact item. -/
structure ContactoItem where
  icon : Option String
  color : Option String
  label : Option String
  value : Option String
deriving DecidableEq, Repr

/-- One availability item of the contact record. -/
structure DispItem where
  icon : Option String
  color : Option String
  text : Option String
deriving DecidableEq, Repr

/-- Record for the contact section. -/
structure ContactoData where
  title : Option String
  items : Option (List ContactoItem)
  disponibilidad : Option (List DispItem)
deriving DecidableEq, Repr

/-- Color table of `colorIcon` (`const colors = \x7b ... \x7d`). -/
def colors : List (String × String) :=
  [("green", "#00ff00"), ("orange", "#ff9900"), ("red", "#ff3333"),
   ("blue", "#3399ff"), ("yellow", "#ffff66"), ("white", "#ffffff")]

/-- Members the object literal `colors` inherits from `Object.prototype`,
paired with the text a template literal interpolates for each: the
function-valued members stringify to their native source text (the
`constructor` member is the `Object` function) and the `__proto__`
accessor yields `Object.prototype` itself, which stringifies to
`[object Object]`.  Every inherited member is truthy, so the
`|| "#ffffff"` fallback does not replace it. -/
def protoMembers : List (String × String) :=
  [("constructor", "function Object() \x7b [native code] \x7d"),
   ("hasOwnProperty", "function hasOwnProperty() \x7b [native code] \x7d"),
   ("isPrototypeOf", "function isPrototypeOf() \x7b [native code] \x7d"),
   ("propertyIsEnumerable", "function propertyIsEnumerable() \x7b [native code] \x7d"),
   ("toLocaleString", "function toLocaleString() \x7b [native code] \x7d"),
   ("toString", "function toString() \x7b [native code] \x7d"),
   ("valueOf", "function valueOf() \x7b [native code] \x7d"),
   ("__defineGetter__", "function __defineGetter__() \x7b [native code] \x7d"),
   ("__defineSetter__", "function __defineSetter__() \x7b [native code] \x7d"),
   ("__lookupGetter__", "function __lookupGetter__() \x7b [native code] \x7d"),
   ("__lookupSetter__", "function __lookupSetter__() \x7b [native code] \x7d"),
   ("__proto__", "[object Object]")]

/-- JavaScript property read `colors[color]`: the own entry when the key
is in the table, otherwise the member inherited from `Object.prototype`
when the key names one, otherwise `none` (`undefined`). -/
def jsMember (color : String) : Option String :=
  match colors.lookup color with
  | some v => some v
  | none => protoMembers.lookup color

/-- Embedding of `colorIcon`: wraps the icon in a span styled with
`colors[color] || "#ffffff"` — the table hex for the six own keys, the
stringified inherited member for `Object.prototype` keys (truthy, so the
fallback does not apply to them), and `#ffffff` only for keys that
resolve to `undefined`. -/
def colorIcon (icon : String) (color : String) : String :=
  "<span style=\"color:" ++ ((jsMember color).getD "#ffffff") ++ "\">"
    ++ icon ++ "</span>"

/-- Embedding of `sectionSeparator`: the fixed 41-dash horizontal rule. -/
def sectionSeparator : String :=
  "-----------------------------------------"

/-- Character-level embedding of JavaScript `toUpperCase()`. -/
def strToUpper (s : String) : String :=
  String.mk (s.data.map Char.toUpper)

/-- Embedding of `textToHtml`: replaces every newline character of the
text by the literal `<br>` (`text.replace(/\n/g, "<br>")`). -/
def textToHtml (text : String) : String :=
  String.mk (text.data.flatMap (fun c => if c = '\n' then "<br>".data else [c]))

/-- Embedding of `formatWhoami`. -/
def formatWhoami (data : WhoamiData) : String :=
  "\nNombre: " ++ data.name ++ "\nRol: " ++ data.role ++ "\n\n" ++ data.text ++ "\n"

/-- Embedding of `formatPerfil`. -/
def formatPerfil (data : PerfilData) : String :=
  let specialization := String.intercalate "\n"
    (data.specialization.map (fun item => colorIcon item.icon item.color ++ " " ++ item.text))
  let goals := String.intercalate "\n"
    (data.goals.map (fun item => colorIcon item.icon item.color ++ " " ++ item.text))
  "\n=== " ++ strToUpper data.title ++ " ===\n\n" ++ data.description
    ++ "\n\n=== ESPECIALIZACIÓN ===\n" ++ specialization
    ++ "\n\n=== OBJETIVOS ===\n" ++ goals ++ "\n"

/-- Embedding of `formatEstudios`. -/
def formatEstudios (data : EstudiosData) : String :=
  "\n=== " ++ strToUpper data.title ++ " ===\n"
    ++ String.intercalate "\n" (data.items.map (fun item =>
        "\n" ++ item.id ++ " " ++ item.titulo ++ " (" ++ item.inicio ++ " - " ++ item.fin
          ++ ")\n     • Centro: " ++ item.centro
          ++ "\n     • Ubicación: " ++ item.ubicacion ++ "\n"
          ++ String.intercalate "\n" (item.temas.map (fun t =>
              "     " ++ (if t.icon ≠ "" then colorIcon t.icon t.color else "-")
                ++ " " ++ t.text))
          ++ "\n"))
    ++ "\n"

/-- Embedding of `formatExperiencia`. -/
def formatExperiencia (data : ExperienciaData) : String :=
  "\n=== " ++ strToUpper data.title ++ " ===\n"
    ++ String.intercalate "\n" (data.items.map (fun item =>
        "\n" ++ item.id ++ " " ++ item.puesto ++ " (" ++ item.inicio ++ " - " ++ item.fin
          ++ ")\n     • Empresa: " ++ item.empresa
          ++ "\n     • Ubicación: " ++ item.ubicacion
          ++ "\n\n     • Responsabilidades:\n"
          ++ String.intercalate "\n" (item.responsabilidades.map (fun r =>
              "     " ++ (if r.icon ≠ "" then colorIcon r.icon r.color else "-")
                ++ " " ++ r.text))
          ++ "\n\n     • Logros:\n"
          ++ String.intercalate "\n" (item.logros.map (fun l =>
              "     " ++ colorIcon l.icon l.color ++ " " ++ l.text))
          ++ "\n\n     • Stack:\n"
          ++ String.intercalate "\n" (item.stackGroups.map (fun group =>
              "     " ++ colorIcon group.icon group.color ++ " " ++ group.title ++ ": "
                ++ String.intercalate ", " group.items))
          ++ "\n"))
    ++ "\n"

/-- Embedding of `formatSkills`. -/
def formatSkills (data : SkillsData) : String :=
  "\n=== " ++ strToUpper data.title ++ " ===\n"
    ++ String.intercalate "\n" (data.categorias.map (fun cat =>
        "\n" ++ cat.nombre ++ "\n"
          ++ String.intercalate "\n" (cat.items.map (fun i =>
              (if i.icon ≠ "" then colorIcon i.icon i.color else "-") ++ " " ++ i.text))
          ++ "\n"))
    ++ "\n"

/-- JavaScript string-or idiom `s || d`: the default replaces the empty
(falsy) string. -/
def jsOr (s d : String) : String :=
  if s = "" then d else s

/-- Defensive string coercion `safeStr`: a missing value becomes `""`. -/
def safeStr (v : Option String) : String :=
  v.getD ""

/-- Defensive list coercion `safeList`: a missing value becomes `[]`. -/
def safeList {α : Type} (v : Option (List α)) : List α :=
  v.getD []

/-- JavaScript truthiness of an optional string (`undefined` and `""` are
falsy). -/
def optTruthy (o : Option String) : Bool :=
  match o with
  | none => false
  | some s => s ≠ ""

/-- Embedding of the `renderCert` closure of the authoritative (defensive)
`formatCertificaciones`. -/
def renderCert (c : Cert) : String :=
  let nombre := safeStr c.nombre
  let anio := safeStr c.anio
  let id := safeStr c.id
  let url := safeStr c.url
  let detalles := safeList c.detalles
  "     " ++ (if optTruthy c.icon then colorIcon (safeStr c.icon) (safeStr c.color) else "-")
    ++ " " ++ nombre
    ++ (if anio ≠ "" then " (" ++ anio ++ ")" else "")
    ++ (if id ≠ "" then "\n       ID: " ++ id else "")
    ++ (if url ≠ "" then
          "\n       URL: <a href=\"" ++ url
            ++ "\" target=\"_blank\" rel=\"noopener noreferrer\">" ++ url ++ "</a>"
        else "")
    ++ (if detalles.length ≠ 0 then
          "\n" ++ String.intercalate "\n" (detalles.map (fun d => "       - " ++ d))
        else "")

/-- Embedding of the authoritative (defensive) `formatCertificaciones`:
each of the three blocks falls back to the placeholder line `     -` when
its list is missing or empty. -/
def formatCertificaciones (data : CertData) : String :=
  "\n=== " ++ strToUpper (safeStr data.title) ++ " ===\n\n• OBTENIDAS:\n"
    ++ jsOr (String.intercalate "\n\n" ((safeList data.obtenidas).map renderCert)) "     -"
    ++ "\n\n• EN CURSO:\n"
    ++ jsOr (String.intercalate "\n\n" ((safeList data.enPreparacion).map renderCert)) "     -"
    ++ "\n\n• OBJETIVOS:\n"
    ++ jsOr (String.intercalate "\n" ((safeList data.objetivos).map (fun o =>
          "     " ++ (if optTruthy o.icon then colorIcon (safeStr o.icon) (safeStr o.color) else "-")
            ++ " " ++ safeStr o.nombre))) "     -"
    ++ "\n"

/-- Embedding of the local `linkify` of the authoritative (defensive)
`formatContacto`: values beginning with an absolute URL scheme become
anchors, everything else passes through. -/
def linkifyValue (value : Option String) : String :=
  let v := safeStr value
  if v.startsWith "http://" || v.startsWith "https://" then
    "<a href=\"" ++ v ++ "\" target=\"_blank\" rel=\"noopener noreferrer\">" ++ v ++ "</a>"
  else v

/-- Embedding of the authoritative (defensive) `formatContacto`. -/
def formatContacto (data : ContactoData) : String :=
  let items := String.intercalate "\n" ((safeList data.items).map (fun i =>
    "     " ++ (if optTruthy i.icon then colorIcon (safeStr i.icon) (safeStr i.color) else "-")
      ++ " " ++ safeStr i.label ++ ": " ++ linkifyValue i.value))
  let disp := String.intercalate "\n" ((safeList data.disponibilidad).map (fun d =>
    "     " ++ (if optTruthy d.icon then colorIcon (safeStr d.icon) (safeStr d.color) else "-")
      ++ " " ++ safeStr d.text))
  "\n=== " ++ strToUpper (safeStr data.title) ++ " ===\n\n"
    ++ jsOr items "     -" ++ "\n\n"
    ++ (if disp ≠ "" then "\n• DISPONIBILIDAD:\n" ++ disp else "") ++ "\n"

/-- Bundle of the static content records imported by `useTerminal`. -/
structure Env where
  whoami : WhoamiData
  perfil : PerfilData
  estudios : EstudiosData
  experiencia : ExperienciaData
  skills : SkillsData
  certificaciones : CertData
  contacto : ContactoData
deriving DecidableEq, Repr

/-- Embedding of `generateAllInfo`: the composite ALL INFO block. -/
def generateAllInfo (env : Env) : String :=
  "\n" ++ formatWhoami env.whoami ++ "\n" ++ sectionSeparator ++ "\n\n"
    ++ formatPerfil env.perfil ++ "\n" ++ sectionSeparator ++ "\n\n"
    ++ formatEstudios env.estudios ++ "\n" ++ sectionSeparator ++ "\n\n"
    ++ formatExperiencia env.experiencia ++ "\n" ++ sectionSeparator ++ "\n\n"
    ++ formatSkills env.skills ++ "\n" ++ sectionSeparator ++ "\n\n"
    ++ formatCertificaciones env.certificaciones ++ "\n" ++ sectionSeparator ++ "\n\n"
    ++ formatContacto env.contacto ++ "\n"

/-- The eight literal command strings of the router's `switch`. -/
def commandVocab : List String :=
  ["whoami", "cat profile.txt", "cat edu.txt", "cat exp.txt", "cat skills.txt",
   "cat certs.txt", "cat contact.txt", "whoami && cat *.txt"]

/-- Content of the entry the router's `switch` prints for a command: the
matched formatter's output, or the converted not-found message on the
`default` branch.  Every branch prints with kind `"html"`. -/
def routeOutput (env : Env) (cmd : String) : String :=
  if cmd = "whoami" then formatWhoami env.whoami
  else if cmd = "cat profile.txt" then formatPerfil env.perfil
  else if cmd = "cat edu.txt" then formatEstudios env.estudios
  else if cmd = "cat exp.txt" then formatExperiencia env.experiencia
  else if cmd = "cat skills.txt" then formatSkills env.skills
  else if cmd = "cat certs.txt" then formatCertificaciones env.certificaciones
  else if cmd = "cat contact.txt" then formatContacto env.contacto
  else if cmd = "whoami && cat *.txt" then generateAllInfo env
  else textToHtml ("Comando no encontrado: " ++ cmd)

/-- State of the `useTerminal` hook: output history plus the three flags. -/
structure TermState where
  output : List OutputItem
  isTyping : Bool
  isTypingCommand : Bool
  hasInteracted : Bool
deriving DecidableEq, Repr

/-- Embedding of `clear`: `setOutput([])`; nothing else changes. -/
def clear (st : TermState) : TermState :=
  { st with output := [] }

/-- Opening markup of the animated prompt (`promptStart` in `typeCommand`). -/
def promptStart : String :=
  "<div class=\"font-mono text-sm leading-tight\"><div class=\"text-[var(--red-accent)]\">┌──(<span class=\"text-[var(--white-soft)]\">kali</span><span class=\"text-[var(--red-soft)]\">㉿</span><span class=\"text-[var(--white-soft)]\">portfolio</span>)-[<span class=\"text-[var(--white-soft)]\">~</span>]</div><div class=\"flex items-center\"><span class=\"text-[var(--red-accent)]\">└─$</span><span class=\"ml-2 text-[var(--white-soft)]\">"

/-- Closing markup of the animated prompt (`promptEnd` in `typeCommand`). -/
def promptEnd : String :=
  "</span></div></div>"

/-- The in-progress prompt entry showing the partially typed command. -/
def promptItem (typed : String) : OutputItem :=
  ⟨OutputType.html, promptStart ++ typed ++ promptEnd⟩

/-- Character-level prefix of a string, the embedding of
`cmd.slice(0, n)`. -/
def strTake (s : String) (n : Nat) : String :=
  String.mk (s.data.take n)

/-- Replacement of the last element of the history
(`updated[updated.length - 1] = item`); on an empty array the JavaScript
assignment to index `-1` leaves the array contents unchanged. -/
def setLast {α : Type} (l : List α) (a : α) : List α :=
  if l.isEmpty then [] else l.dropLast ++ [a]

/-- The character-reveal loop of `typeCommand`, starting at character
index `i`: returns the list of states observed after each iteration's
history update together with the state the loop leaves behind. -/
def typeLoopRun (s : TermState) (cmd : String) (i : Nat) : List TermState × TermState :=
  if h : i < cmd.length then
    let s' := { s with output := setLast s.output (promptItem (strTake cmd (i + 1))) }
    let r := typeLoopRun s' cmd (i + 1)
    (s' :: r.1, r.2)
  else ([], s)
termination_by cmd.length - i
decreasing_by omega

/-- Embedding of `typeCommand`: the sequence of states observed after each
`setState` of the animation (flags raised, empty prompt inserted, one
state per revealed character, flags lowered), paired with the final
state. -/
def typeCommandRun (st : TermState) (cmd : String) : List TermState × TermState :=
  let s1 := { st with isTyping := true }
  let s2 := { s1 with isTypingCommand := true }
  let s3 := { s2 with output := s2.output ++ [promptItem ""] }
  let r := typeLoopRun s3 cmd 0
  let s4 := { r.2 with isTyping := false }
  let s5 := { s4 with isTypingCommand := false }
  (s1 :: s2 :: s3 :: r.1 ++ [s4, s5], s5)

/-- Embedding of `runCommand`: mark interaction, clear the history, run
the typing animation, then print the routed output as an `"html"` entry.
Returns the observed state sequence paired with the final state. -/
def runCommandRun (st : TermState) (env : Env) (cmd : String) : List TermState × TermState :=
  let s1 := { st with hasInteracted := true }
  let s2 := clear s1
  let r := typeCommandRun s2 cmd
  let sF := { r.2 with output := r.2.output ++ [⟨OutputType.html, routeOutput env cmd⟩] }
  (s1 :: s2 :: r.1 ++ [sF], sF)

/-- Banner selection of `useTerminal`: mobile below 640, tablet below
1024, desktop otherwise. -/
structure AsciiData where
  bannerDesktop : String
  bannerTablet : String
  bannerMobile : String
deriving DecidableEq, Repr

/-- The banner chosen from the screen width. -/
def initialBanner (width : Nat) (ascii : AsciiData) : String :=
  if width < 640 then ascii.bannerMobile
  else if width < 1024 then ascii.bannerTablet
  else ascii.bannerDesktop

/-- Initial hook state: one raw banner entry, all flags `false`. -/
def initTerminal (width : Nat) (ascii : AsciiData) : TermState :=
  { output := [⟨OutputType.raw, initialBanner width ascii⟩],
    isTyping := false, isTypingCommand := false, hasInteracted := false }

/-- Data of a rebuilt string. -/
theorem data_mk (l : List Char) : (String.mk l).data = l := rfl

/-- Taking all characters gives the string back. -/
theorem strTake_length (s : String) : strTake s s.length = s := by
  unfold strTake
  rw [show s.length = s.data.length from rfl, List.take_length]

/-- Taking no characters gives the empty string. -/
theorem strTake_zero (s : String) : strTake s 0 = "" := rfl

/-- Newline conversion distributes over string concatenation. -/
theorem textToHtml_append (a b : String) :
    textToHtml (a ++ b) = textToHtml a ++ textToHtml b := by
  apply String.ext
  simp [textToHtml, data_mk]

/-- On any string outside the vocabulary the router takes the `default`
branch. -/
theorem routeOutput_default (env : Env) (cmd : String) (h : cmd ∉ commandVocab) :
    routeOutput env cmd = textToHtml ("Comando no encontrado: " ++ cmd) := by
  simp only [commandVocab, List.mem_cons, List.not_mem_nil, or_false, not_or] at h
  obtain ⟨h1, h2, h3, h4, h5, h6, h7, h8⟩ := h
  simp [routeOutput, h1, h2, h3, h4, h5, h6, h7, h8]

/-- Concrete content records used to instantiate universally quantified
theorems. -/
def sampleEnv : Env :=
  { whoami := ⟨"Don", "Pentester", "Hola"⟩,
    perfil := ⟨"Perfil", "Descripcion", [], []⟩,
    estudios := ⟨"Estudios", []⟩,
    experiencia := ⟨"Experiencia", []⟩,
    skills := ⟨"Habilidades", []⟩,
    certificaciones := ⟨none, none, none, none⟩,
    contacto := ⟨none, none, none⟩ }

/-- C1: the composite command's output is the ordered concatenation of the
seven section formatters' outputs — whoami, profile, education,
experience, skills, certifications, contact — with the `sectionSeparator`
rule standing between each adjacent pair (framed by the template's
newlines). -/
theorem allInfo_concat (env : Env) :
    routeOutput env "whoami && cat *.txt"
      = "\n" ++ String.intercalate ("\n" ++ sectionSeparator ++ "\n\n")
          [formatWhoami env.whoami, formatPerfil env.perfil, formatEstudios env.estudios,
           formatExperiencia env.experiencia, formatSkills env.skills,
           formatCertificaciones env.certificaciones, formatContacto env.contacto]
        ++ "\n" := by
  have h : routeOutput env "whoami && cat *.txt" = generateAllInfo env := rfl
  rw [h]
  apply String.ext
  simp [generateAllInfo, String.intercalate, String.intercalate.go, List.append_assoc]

/-- C2: the router matches its input case-sensitively and exactly against
the fixed eight-string vocabulary; each vocabulary string selects its
formatter's output and every other string takes the not-found branch. -/
theorem router_closed_vocabulary (env : Env) (cmd : String) (h : cmd ∉ commandVocab) :
    routeOutput env cmd = textToHtml ("Comando no encontrado: " ++ cmd)
    ∧ routeOutput env "whoami" = formatWhoami env.whoami
    ∧ routeOutput env "cat profile.txt" = formatPerfil env.perfil
    ∧ routeOutput env "cat edu.txt" = formatEstudios env.estudios
    ∧ routeOutput env "cat exp.txt" = formatExperiencia env.experiencia
    ∧ routeOutput env "cat skills.txt" = formatSkills env.skills
    ∧ routeOutput env "cat certs.txt" = formatCertificaciones env.certificaciones
    ∧ routeOutput env "cat contact.txt" = formatContacto env.contacto
    ∧ routeOutput env "whoami && cat *.txt" = generateAllInfo env :=
  ⟨routeOutput_default env cmd h, rfl, rfl, rfl, rfl, rfl, rfl, rfl, rfl⟩

/-- Witness for C2 at the case-variant input `"WHOAMI"` and the concrete
record bundle `sampleEnv`. -/
theorem router_closed_vocabulary_witness :
    routeOutput sampleEnv "WHOAMI" = textToHtml ("Comando no encontrado: " ++ "WHOAMI")
    ∧ routeOutput sampleEnv "whoami" = formatWhoami sampleEnv.whoami
    ∧ routeOutput sampleEnv "cat profile.txt" = formatPerfil sampleEnv.perfil
    ∧ routeOutput sampleEnv "cat edu.txt" = formatEstudios sampleEnv.estudios
    ∧ routeOutput sampleEnv "cat exp.txt" = formatExperiencia sampleEnv.experiencia
    ∧ routeOutput sampleEnv "cat skills.txt" = formatSkills sampleEnv.skills
    ∧ routeOutput sampleEnv "cat certs.txt" = formatCertificaciones sampleEnv.certificaciones
    ∧ routeOutput sampleEnv "cat contact.txt" = formatContacto sampleEnv.contacto
    ∧ routeOutput sampleEnv "whoami && cat *.txt" = generateAllInfo sampleEnv :=
  router_closed_vocabulary sampleEnv "WHOAMI" (by decide)

/-- C3 counterexample: for the unknown input `"a\nb"` the appended content
is `"Comando no encontrado: a<br>b"`, which does not contain the verbatim
input (its newline was converted), refuting the claim as stated. -/
theorem notFound_verbatim_cex :
    ("a\nb" ∉ commandVocab)
    ∧ routeOutput sampleEnv "a\nb" = "Comando no encontrado: a<br>b"
    ∧ ¬ (("a\nb").data <:+: (routeOutput sampleEnv "a\nb").data) :=
  ⟨by decide, by decide, by decide⟩

/-- C3 (amended): for every input outside the vocabulary the appended
content is `textToHtml` of the fixed marker followed by the input; it
contains the marker verbatim and the input with each newline replaced by
`<br>` (hence the verbatim input whenever the input has no newline). -/
theorem notFound_message (env : Env) (cmd : String) (h : cmd ∉ commandVocab) :
    routeOutput env cmd = textToHtml ("Comando no encontrado: " ++ cmd)
    ∧ ("Comando no encontrado: ").data <:+: (routeOutput env cmd).data
    ∧ (textToHtml cmd).data <:+: (routeOutput env cmd).data := by
  have hd := routeOutput_default env cmd h
  have hm : textToHtml "Comando no encontrado: " = "Comando no encontrado: " := by decide
  have hsplit : routeOutput env cmd = "Comando no encontrado: " ++ textToHtml cmd := by
    rw [hd, textToHtml_append, hm]
  refine ⟨hd, ?_, ?_⟩
  · rw [hsplit]
    exact ⟨[], (textToHtml cmd).data, by simp⟩
  · rw [hsplit]
    exact ⟨("Comando no encontrado: ").data, [], by simp⟩

/-- Witness for C3 at the unknown newline-free input `"badcmd"`. -/
theorem notFound_message_witness :
    routeOutput sampleEnv "badcmd" = textToHtml ("Comando no encontrado: " ++ "badcmd")
    ∧ ("Comando no encontrado: ").data <:+: (routeOutput sampleEnv "badcmd").data
    ∧ (textToHtml "badcmd").data <:+: (routeOutput sampleEnv "badcmd").data :=
  notFound_message sampleEnv "badcmd" (by decide)

/-- C7: every section formatter (and the composite) is a pure function of
its input record — a second invocation on the same record returns the
identical string; purity itself is witnessed by the fact that each
formatter is definable as a function of the record alone, with no other
state in scope. -/
theorem formatter_purity (env : Env) :
    formatWhoami env.whoami = formatWhoami env.whoami
    ∧ formatPerfil env.perfil = formatPerfil env.perfil
    ∧ formatEstudios env.estudios = formatEstudios env.estudios
    ∧ formatExperiencia env.experiencia = formatExperiencia env.experiencia
    ∧ formatSkills env.skills = formatSkills env.skills
    ∧ formatCertificaciones env.certificaciones = formatCertificaciones env.certificaciones
    ∧ formatContacto env.contacto = formatContacto env.contacto
    ∧ generateAllInfo env = generateAllInfo env :=
  ⟨rfl, rfl, rfl, rfl, rfl, rfl, rfl, rfl⟩

/-- C8 counterexample: the key `"toString"` lies outside the six-entry
table, yet `colors["toString"]` resolves through the prototype chain to
the truthy inherited member, so the interpolated style is that member's
stringification and not the `#ffffff` fallback, refuting the claim as
stated. -/
theorem colorIcon_proto_cex :
    ("toString" ∉ ["green", "orange", "red", "blue", "yellow", "white"])
    ∧ colorIcon "[+]" "toString"
        = "<span style=\"color:function toString() \x7b [native code] \x7d\">[+]</span>"
    ∧ colorIcon "[+]" "toString" ≠ "<span style=\"color:#ffffff\">[+]</span>" :=
  ⟨by decide, by decide, by decide⟩

/-- C8 (amended): `colorIcon` wraps the icon in a span styled with
`colors[color] || "#ffffff"`: the table hex for each of the six known
keys; the `#ffffff` fallback for every other key that does not name an
`Object.prototype` member (the empty and absent keys included); and, for
the twelve inherited `Object.prototype` member keys, the stringified
inherited member rather than a hex color. -/
theorem colorIcon_spec (icon color : String)
    (h : color ∉ ["green", "orange", "red", "blue", "yellow", "white"])
    (hp : protoMembers.lookup color = none) :
    colorIcon icon color = "<span style=\"color:#ffffff\">" ++ icon ++ "</span>"
    ∧ colorIcon icon "green" = "<span style=\"color:#00ff00\">" ++ icon ++ "</span>"
    ∧ colorIcon icon "orange" = "<span style=\"color:#ff9900\">" ++ icon ++ "</span>"
    ∧ colorIcon icon "red" = "<span style=\"color:#ff3333\">" ++ icon ++ "</span>"
    ∧ colorIcon icon "blue" = "<span style=\"color:#3399ff\">" ++ icon ++ "</span>"
    ∧ colorIcon icon "yellow" = "<span style=\"color:#ffff66\">" ++ icon ++ "</span>"
    ∧ colorIcon icon "white" = "<span style=\"color:#ffffff\">" ++ icon ++ "</span>"
    ∧ colorIcon icon "constructor" = "<span style=\"color:function Object() \x7b [native code] \x7d\">" ++ icon ++ "</span>"
    ∧ colorIcon icon "hasOwnProperty" = "<span style=\"color:function hasOwnProperty() \x7b [native code] \x7d\">" ++ icon ++ "</span>"
    ∧ colorIcon icon "isPrototypeOf" = "<span style=\"color:function isPrototypeOf() \x7b [native code] \x7d\">" ++ icon ++ "</span>"
    ∧ colorIcon icon "propertyIsEnumerable" = "<span style=\"color:function propertyIsEnumerable() \x7b [native code] \x7d\">" ++ icon ++ "</span>"
    ∧ colorIcon icon "toLocaleString" = "<span style=\"color:function toLocaleString() \x7b [native code] \x7d\">" ++ icon ++ "</span>"
    ∧ colorIcon icon "toString" = "<span style=\"color:function toString() \x7b [native code] \x7d\">" ++ icon ++ "</span>"
    ∧ colorIcon icon "valueOf" = "<span style=\"color:function valueOf() \x7b [native code] \x7d\">" ++ icon ++ "</span>"
    ∧ colorIcon icon "__defineGetter__" = "<span style=\"color:function __defineGetter__() \x7b [native code] \x7d\">" ++ icon ++ "</span>"
    ∧ colorIcon icon "__defineSetter__" = "<span style=\"color:function __defineSetter__() \x7b [native code] \x7d\">" ++ icon ++ "</span>"
    ∧ colorIcon icon "__lookupGetter__" = "<span style=\"color:function __lookupGetter__() \x7b [native code] \x7d\">" ++ icon ++ "</span>"
    ∧ colorIcon icon "__lookupSetter__" = "<span style=\"color:function __lookupSetter__() \x7b [native code] \x7d\">" ++ icon ++ "</span>"
    ∧ colorIcon icon "__proto__" = "<span style=\"color:[object Object]\">" ++ icon ++ "</span>" := by
  simp only [List.mem_cons, List.not_mem_nil, or_false, not_or] at h
  obtain ⟨h1, h2, h3, h4, h5, h6⟩ := h
  have hl : colors.lookup color = none := by
    simp [colors, List.lookup, beq_eq_false_iff_ne.mpr h1, beq_eq_false_iff_ne.mpr h2,
      beq_eq_false_iff_ne.mpr h3, beq_eq_false_iff_ne.mpr h4,
      beq_eq_false_iff_ne.mpr h5, beq_eq_false_iff_ne.mpr h6]
  have hm : jsMember color = none := by
    unfold jsMember
    rw [hl]
    exact hp
  refine ⟨?_, rfl, rfl, rfl, rfl, rfl, rfl, rfl, rfl, rfl, rfl, rfl, rfl, rfl, rfl, rfl, rfl, rfl, rfl⟩
  unfold colorIcon
  rw [hm]
  rfl

/-- Witness for C8 at the unknown non-prototype key `"purple"` and icon
`"[+]"`. -/
theorem colorIcon_spec_witness :
    colorIcon "[+]" "purple" = "<span style=\"color:#ffffff\">" ++ "[+]" ++ "</span>"
    ∧ colorIcon "[+]" "green" = "<span style=\"color:#00ff00\">" ++ "[+]" ++ "</span>"
    ∧ colorIcon "[+]" "orange" = "<span style=\"color:#ff9900\">" ++ "[+]" ++ "</span>"
    ∧ colorIcon "[+]" "red" = "<span style=\"color:#ff3333\">" ++ "[+]" ++ "</span>"
    ∧ colorIcon "[+]" "blue" = "<span style=\"color:#3399ff\">" ++ "[+]" ++ "</span>"
    ∧ colorIcon "[+]" "yellow" = "<span style=\"color:#ffff66\">" ++ "[+]" ++ "</span>"
    ∧ colorIcon "[+]" "white" = "<span style=\"color:#ffffff\">" ++ "[+]" ++ "</span>"
    ∧ colorIcon "[+]" "constructor" = "<span style=\"color:function Object() \x7b [native code] \x7d\">" ++ "[+]" ++ "</span>"
    ∧ colorIcon "[+]" "hasOwnProperty" = "<span style=\"color:function hasOwnProperty() \x7b [native code] \x7d\">" ++ "[+]" ++ "</span>"
    ∧ colorIcon "[+]" "isPrototypeOf" = "<span style=\"color:function isPrototypeOf() \x7b [native code] \x7d\">" ++ "[+]" ++ "</span>"
    ∧ colorIcon "[+]" "propertyIsEnumerable" = "<span style=\"color:function propertyIsEnumerable() \x7b [native code] \x7d\">" ++ "[+]" ++ "</span>"
    ∧ colorIcon "[+]" "toLocaleString" = "<span style=\"color:function toLocaleString() \x7b [native code] \x7d\">" ++ "[+]" ++ "</span>"
    ∧ colorIcon "[+]" "toString" = "<span style=\"color:function toString() \x7b [native code] \x7d\">" ++ "[+]" ++ "</span>"
    ∧ colorIcon "[+]" "valueOf" = "<span style=\"color:function valueOf() \x7b [native code] \x7d\">" ++ "[+]" ++ "</span>"
    ∧ colorIcon "[+]" "__defineGetter__" = "<span style=\"color:function __defineGetter__() \x7b [native code] \x7d\">" ++ "[+]" ++ "</span>"
    ∧ colorIcon "[+]" "__defineSetter__" = "<span style=\"color:function __defineSetter__() \x7b [native code] \x7d\">" ++ "[+]" ++ "</span>"
    ∧ colorIcon "[+]" "__lookupGetter__" = "<span style=\"color:function __lookupGetter__() \x7b [native code] \x7d\">" ++ "[+]" ++ "</span>"
    ∧ colorIcon "[+]" "__lookupSetter__" = "<span style=\"color:function __lookupSetter__() \x7b [native code] \x7d\">" ++ "[+]" ++ "</span>"
    ∧ colorIcon "[+]" "__proto__" = "<span style=\"color:[object Object]\">" ++ "[+]" ++ "</span>" :=
  colorIcon_spec "[+]" "purple" (by decide) (by decide)

/-- C9: `clear` empties the output history and leaves the three flags
untouched. -/
theorem clear_frame (st : TermState) :
    (clear st).output = []
    ∧ (clear st).isTyping = st.isTyping
    ∧ (clear st).isTypingCommand = st.isTypingCommand
    ∧ (clear st).hasInteracted = st.hasInteracted :=
  ⟨rfl, rfl, rfl, rfl⟩

/-- C10: the initial state holds exactly one raw entry — the banner picked
by screen width (mobile below 640, tablet below 1024, desktop otherwise) —
and all three flags are `false`. -/
theorem initial_state (width : Nat) (ascii : AsciiData) :
    (initTerminal width ascii).output
        = [⟨OutputType.raw,
            if width < 640 then ascii.bannerMobile
            else if width < 1024 then ascii.bannerTablet
            else ascii.bannerDesktop⟩]
    ∧ (initTerminal width ascii).output ≠ []
    ∧ (initTerminal width ascii).isTyping = false
    ∧ (initTerminal width ascii).isTypingCommand = false
    ∧ (initTerminal width ascii).hasInteracted = false :=
  ⟨rfl, by simp [initTerminal], rfl, rfl, rfl⟩

/-- Replacing the last element of a non-empty history. -/
theorem setLast_concat {α : Type} (l : List α) (a b : α) :
    setLast (l ++ [a]) b = l ++ [b] := by
  simp [setLast]

/-- Closed form of the character-reveal loop: starting at index `i` with
the in-progress prompt showing the `i`-prefix, the loop emits one state
per remaining character, the state for index `j` showing the `j`-prefix,
and finishes on the state showing the whole command. -/
theorem typeLoopRun_spec (cmd : String) (front : List OutputItem) (t tc hi : Bool) :
    ∀ n i, i ≤ cmd.length → n = cmd.length - i →
      typeLoopRun ⟨front ++ [promptItem (strTake cmd i)], t, tc, hi⟩ cmd i
        = ((List.range' (i + 1) (cmd.length - i)).map (fun j =>
             ⟨front ++ [promptItem (strTake cmd j)], t, tc, hi⟩),
           ⟨front ++ [promptItem (strTake cmd cmd.length)], t, tc, hi⟩) := by
  intro n
  induction n with
  | zero =>
    intro i hle hn
    have hi' : i = cmd.length := by omega
    subst hi'
    rw [typeLoopRun]
    simp
  | succ n ih =>
    intro i hle hn
    have hlt : i < cmd.length := by omega
    have hrec := ih (i + 1) (by omega) (by omega)
    rw [typeLoopRun, dif_pos hlt]
    simp only [setLast_concat]
    rw [hrec]
    have hr : cmd.length - i = (cmd.length - (i + 1)) + 1 := by omega
    rw [hr, List.range'_succ]
    simp

/-- Closed form of the whole typing animation: raise the two flags, insert
the empty prompt, reveal one more character per state (the `i`-th reveal
state shows the length-`i` prefix, for `i = 0, ..., N`), then lower
`isTyping` and finally `isTypingCommand`, both only after the state
showing the full command. -/
theorem typeCommandRun_spec (st : TermState) (cmd : String) :
    typeCommandRun st cmd
      = ({ st with isTyping := true } ::
         { st with isTyping := true, isTypingCommand := true } ::
         ((List.range (cmd.length + 1)).map (fun i =>
            { st with isTyping := true, isTypingCommand := true, output := st.output ++ [promptItem (strTake cmd i)] })
          ++ [{ st with isTyping := false, isTypingCommand := true, output := st.output ++ [promptItem cmd] },
              { st with isTyping := false, isTypingCommand := false, output := st.output ++ [promptItem cmd] }]),
         { st with isTyping := false, isTypingCommand := false, output := st.output ++ [promptItem cmd] }) := by
  obtain ⟨out, t, tc, hi⟩ := st
  have h0 := typeLoopRun_spec cmd out true true hi cmd.length 0 (by omega) (by omega)
  rw [strTake_zero] at h0
  unfold typeCommandRun
  simp only [h0]
  rw [List.range_eq_range', List.range'_succ]
  simp [strTake_zero, strTake_length]

/-- C5: the typing animation produces exactly `N + 1` observable states of
the in-progress prompt entry — the length-`i` prefixes of the command for
`i = 0, ..., N` in order, from empty to full — each successive reveal
extending the previous one by exactly one character, and the `isTyping`
and `isTypingCommand` flags are lowered only in the two states that come
after the full command is shown. -/
theorem typeCommand_animation (st : TermState) (cmd : String) :
    (typeCommandRun st cmd).1
      = { st with isTyping := true } ::
        { st with isTyping := true, isTypingCommand := true } ::
        ((List.range (cmd.length + 1)).map (fun i =>
           { st with isTyping := true, isTypingCommand := true, output := st.output ++ [promptItem (strTake cmd i)] })
         ++ [{ st with isTyping := false, isTypingCommand := true, output := st.output ++ [promptItem cmd] },
             { st with isTyping := false, isTypingCommand := false, output := st.output ++ [promptItem cmd] }])
    ∧ (List.range (cmd.length + 1)).length = cmd.length + 1
    ∧ strTake cmd 0 = ""
    ∧ strTake cmd cmd.length = cmd
    ∧ ∀ i : Fin cmd.length,
        (strTake cmd i.1).data <+: (strTake cmd (i.1 + 1)).data
        ∧ ((strTake cmd (i.1 + 1)).data).length = ((strTake cmd i.1).data).length + 1 := by
  refine ⟨?_, by simp, strTake_zero cmd, strTake_length cmd, ?_⟩
  · rw [typeCommandRun_spec]
  · intro i
    have hlen : cmd.length = cmd.data.length := rfl
    have hi := i.2
    constructor
    · have ht : cmd.data.take i.1 = (cmd.data.take (i.1 + 1)).take i.1 := by
        rw [List.take_take]
        congr 1
        omega
      unfold strTake
      rw [data_mk, data_mk, ht]
      exact List.take_prefix _ _
    · unfold strTake
      rw [data_mk, data_mk, List.length_take, List.length_take]
      omega

/-- C4: one `runCommand` invocation observes, strictly in order: the
interaction flag raised (history still untouched), the history cleared,
the whole typing-animation sequence, and finally the routed result
appended — so the final history holds exactly the two entries produced by
this run (the finished prompt and the result), independent of the
history the run started from. -/
theorem runCommand_ordering (st : TermState) (env : Env) (cmd : String) :
    (runCommandRun st env cmd).1
      = { st with hasInteracted := true } ::
        { st with hasInteracted := true, output := [] } ::
        ((typeCommandRun { st with hasInteracted := true, output := [] } cmd).1
         ++ [⟨[promptItem cmd, ⟨OutputType.html, routeOutput env cmd⟩], false, false, true⟩])
    ∧ (runCommandRun st env cmd).2
      = ⟨[promptItem cmd, ⟨OutputType.html, routeOutput env cmd⟩], false, false, true⟩ := by
  obtain ⟨out, t, tc, hi⟩ := st
  constructor
  · simp [runCommandRun, clear, typeCommandRun_spec]
  · simp [runCommandRun, clear, typeCommandRun_spec]

